import Mathlib

/-!
Verification of the Livepeer delegator dashboard aggregation core
(final revision of src/LivepeerDashboard.jsx).

The embedding models the data-handling layer of the component:
address validation and lookup dispatch (`loadDelegator`), the
claims/events normalization and merge into one timeline, the derived
metrics (ROI, cumulative series), the orchestrator comparison loader
(`loadOrchestrators`) with its yield projections, and the CSV export
schema.  Numbers that JavaScript holds as IEEE-754 doubles are modelled
as rationals; the one claim that is about the parsing precision itself
is settled against an explicit model of ECMAScript integer-string
parsing (`jsNumberOfNat`).  React state updates are modelled by explicit
state passing on a `DashState` record, and network calls by an
environment of `Except`-valued responses together with the list of
requests a call issues.
-/

/-! ### String primitives

Structural (kernel-reducible) models of the JavaScript string methods
the component uses: `String.prototype.trim`, `toLowerCase`, `endsWith`,
and the address regex test. -/

/-- Whitespace test used by the model of `String.prototype.trim`. -/
def isWhite (c : Char) : Bool := c.isWhitespace

/-- Drop leading and trailing whitespace from a character list. -/
def trimChars (l : List Char) : List Char :=
  ((l.dropWhile isWhite).reverse.dropWhile isWhite).reverse

/-- Model of `String.prototype.trim`. -/
def jsTrim (s : String) : String := ⟨trimChars s.data⟩

/-- Lower-case a single ASCII character (model of `toLowerCase` per char). -/
def lowerChar (c : Char) : Char :=
  if 'A' ≤ c && c ≤ 'Z' then Char.ofNat (c.toNat + 32) else c

/-- Model of `String.prototype.toLowerCase` (ASCII range). -/
def jsToLower (s : String) : String := ⟨s.data.map lowerChar⟩

/-- Model of `String.prototype.endsWith`. -/
def jsEndsWith (s suffix : String) : Bool := suffix.data.isSuffixOf s.data

/-- Lower-case hexadecimal digit test, the character class of the
address regex. -/
def isHexLower (c : Char) : Bool := c.isDigit || ('a' ≤ c && c ≤ 'f')

/-- Model of the validation regex test from the source:
a 40 lower-hex-character address prefixed with 0x. -/
def validAddr (s : String) : Bool :=
  s.data.length == 42 && "0x".data.isPrefixOf s.data && (s.data.drop 2).all isHexLower

/-! ### ECMAScript number parsing model

The source parses every numeric field of the subgraph responses with
the JavaScript `Number(...)` conversion, which produces an IEEE-754
binary64 value: round to nearest, ties to even, 53 significand bits.
`jsNumberOfNat` models that conversion for integer-valued decimal
strings (the regime where precision loss is decidable by pure natural
arithmetic); it is exact below 2^53 and rounds above. -/

/-- Fuelled floor of log base 2 (structural, so the kernel can
evaluate it; 1100 iterations cover the whole binary64 range). -/
def log2fuel : ℕ → ℕ → ℕ
  | 0, _ => 0
  | fuel + 1, m => if m ≤ 1 then 0 else log2fuel fuel (m / 2) + 1

/-- Floor of log base 2 for the binary64 range. -/
def log2floor (n : ℕ) : ℕ := log2fuel 1100 n

/-- Model of ECMAScript `Number("<decimal integer>")`: round the integer
to the nearest binary64 value (53 significand bits, ties to even). -/
def jsNumberOfNat (n : ℕ) : ℕ :=
  if n ≤ 2 ^ 53 then n
  else
    let g := 2 ^ (log2floor n - 52)
    let q := n / g
    let r := n % g
    if 2 * r < g then q * g
    else if g < 2 * r then (q + 1) * g
    else if q % 2 = 0 then q * g else (q + 1) * g

/-! ### Data model

Raw records are the subgraph response shapes after `Number(...)`
conversion of their decimal-string fields (modelled as rationals);
`Claim`, `TimelineEntry`, `DelegatorData`, `Orch` are the shapes the
component builds from them.  Display-only formatted strings (the
`r`, `desc`, `val` fields of the source) are presentation output and
are not carried. -/

/-- Raw earningsClaimedEvents record. -/
structure RawClaim where
  timestamp : ℚ
  startRound : ℤ
  endRound : ℤ
  rewardTokens : ℚ
  fees : ℚ
  delegate : Option String
deriving DecidableEq

/-- Claim record as built in loadDelegator. -/
structure Claim where
  lpt : ℚ
  eth : ℚ
  ts : ℚ
  rounds : ℤ
  delegate : Option String
deriving DecidableEq

/-- Claim construction: rounds covered is clamped to at least 1. -/
def mkClaim (c : RawClaim) : Claim :=
  { lpt := c.rewardTokens, eth := c.fees, ts := c.timestamp,
    rounds := max (c.endRound - c.startRound + 1) 1, delegate := c.delegate }

/-- Raw bondEvents record. -/
structure RawBondEvent where
  timestamp : ℚ
  round : ℤ
  bondedAmount : ℚ
  additionalAmount : ℚ
  newDelegate : String
  oldDelegate : Option String
deriving DecidableEq

/-- Raw unbond / rebond / withdrawStake / withdrawFees record. -/
structure RawAmountEvent where
  timestamp : ℚ
  round : ℤ
  amount : ℚ
deriving DecidableEq

/-- The five raw event collections returned by the events query. -/
structure RawEvents where
  bondEvents : List RawBondEvent
  unbondEvents : List RawAmountEvent
  rebondEvents : List RawAmountEvent
  withdrawStakeEvents : List RawAmountEvent
  withdrawFeesEvents : List RawAmountEvent
deriving DecidableEq

/-- Timeline entry kinds (the `t` field of the source objects). -/
inductive EvKind where
  | bond
  | redelegate
  | unbond
  | rebond
  | withdraw
  | withdrawFees
  | claim
deriving DecidableEq

/-- Common timeline shape: kind, timestamp, round reference and the
magnitude shown for the entry. -/
structure TimelineEntry where
  t : EvKind
  ts : ℚ
  round : ℤ
  amount : ℚ
deriving DecidableEq

/-- Map a bond event: reclassified as redelegate when the incremental
amount is zero and an old delegate reference is present. -/
def bondEntry (e : RawBondEvent) : TimelineEntry :=
  { t := if e.additionalAmount = 0 && e.oldDelegate.isSome then .redelegate else .bond,
    ts := e.timestamp, round := e.round, amount := e.additionalAmount }

/-- The five stake-event collections mapped to the common shape, in
source-append order (bond, unbond, rebond, withdrawStake, withdrawFees). -/
def stakeEventEntries (evts : RawEvents) : List TimelineEntry :=
  evts.bondEvents.map bondEntry
    ++ evts.unbondEvents.map (fun e => { t := .unbond, ts := e.timestamp, round := e.round, amount := e.amount })
    ++ evts.rebondEvents.map (fun e => { t := .rebond, ts := e.timestamp, round := e.round, amount := e.amount })
    ++ evts.withdrawStakeEvents.map (fun e => { t := .withdraw, ts := e.timestamp, round := e.round, amount := e.amount })
    ++ evts.withdrawFeesEvents.map (fun e => { t := .withdrawFees, ts := e.timestamp, round := e.round, amount := e.amount })

/-- Claim entries appended to the timeline (source stores round 0 for
claim entries). -/
def claimEntries (claims : List Claim) : List TimelineEntry :=
  claims.map (fun c => { t := .claim, ts := c.ts, round := 0, amount := c.lpt })

/-- All timeline entries before sorting, in source-append order:
stake events first, then claims. -/
def timelineSources (evts : RawEvents) (claims : List Claim) : List TimelineEntry :=
  stakeEventEntries evts ++ claimEntries claims

/-- Sort order of the timeline: ascending timestamp. -/
def tsLE (a b : TimelineEntry) : Prop := a.ts ≤ b.ts

instance : DecidableRel tsLE := fun a b => inferInstanceAs (Decidable (a.ts ≤ b.ts))

instance : IsTotal TimelineEntry tsLE := ⟨fun a b => le_total a.ts b.ts⟩

instance : IsTrans TimelineEntry tsLE := ⟨fun _ _ _ h₁ h₂ => le_trans h₁ h₂⟩

/-- Model of `events.sort((a, b) => a.ts - b.ts)`.
`Array.prototype.sort` is specified to be stable, so it is modelled by a
stable sort (insertion sort) under the same ascending-timestamp order. -/
def sortTimeline (l : List TimelineEntry) : List TimelineEntry :=
  List.insertionSort tsLE l

/-- The merged timeline built by loadDelegator. -/
def buildTimeline (evts : RawEvents) (claims : List Claim) : List TimelineEntry :=
  sortTimeline (timelineSources evts claims)

/-! ### Delegator profile and the data snapshot -/

/-- Raw delegator profile record (fields the component uses). -/
structure RawDelegator where
  bondedAmount : ℚ
  fees : ℚ
  withdrawnFees : ℚ
  startRound : ℤ
  delegate : Option String
deriving DecidableEq

/-- The data snapshot loadDelegator stores on success. -/
structure DelegatorData where
  address : String
  bondedAmount : ℚ
  totalFees : ℚ
  withdrawnFees : ℚ
  delegate : Option String
  claims : List Claim
  events : List TimelineEntry
  earned : ℚ
  totalETH : ℚ
  totalRounds : ℤ
deriving DecidableEq

/-- Build the data snapshot from the three query results, as the
success branch of loadDelegator does. -/
def mkData (addr : String) (del : RawDelegator) (rawClaims : List RawClaim)
    (evts : RawEvents) : DelegatorData :=
  let claims := rawClaims.map mkClaim
  { address := addr, bondedAmount := del.bondedAmount, totalFees := del.fees,
    withdrawnFees := del.withdrawnFees, delegate := del.delegate,
    claims := claims, events := buildTimeline evts claims,
    earned := (claims.map Claim.lpt).sum,
    totalETH := (claims.map Claim.eth).sum,
    totalRounds := (claims.map Claim.rounds).sum }

/-! ### Orchestrator comparison data -/

/-- Raw transcoders query record. -/
structure RawTranscoder where
  id : String
  rewardCut : ℚ
  feeShare : ℚ
  totalStake : ℚ
  thirtyDayVolumeETH : ℚ
  ninetyDayVolumeETH : ℚ
  totalVolumeETH : ℚ
  lastRewardRound : Option String
deriving DecidableEq

/-- Raw protocol query record. -/
structure RawProtocol where
  inflation : ℚ
  totalActiveStake : ℚ
  totalSupply : ℚ
  participationRate : ℚ
  currentRound : String
  mintableTokens : ℚ
  lptPriceEth : ℚ
deriving DecidableEq

/-- Protocol snapshot stored by loadOrchestrators. -/
structure ProtocolData where
  inflation : ℚ
  totalActiveStake : ℚ
  totalSupply : ℚ
  participationRate : ℚ
  currentRound : String
  lptPriceEth : ℚ
deriving DecidableEq

/-- Protocol snapshot construction. -/
def mkProtocolData (p : RawProtocol) : ProtocolData :=
  { inflation := p.inflation, totalActiveStake := p.totalActiveStake,
    totalSupply := p.totalSupply, participationRate := p.participationRate,
    currentRound := p.currentRound, lptPriceEth := p.lptPriceEth }

/-- Per-orchestrator snapshot with the derived yield projections. -/
structure Orch where
  id : String
  rewardCut : ℚ
  feeShare : ℚ
  stake : ℚ
  eth30d : ℚ
  eth90d : ℚ
  totalETH : ℚ
  rewardAPY : ℚ
  ethYieldPerLPT : ℚ
  delegatorFees30d : ℚ
  isWorking : Bool
  lastRewardRound : Option String
  callingReward : Bool
  sparkline : Option (List (ℚ × ℚ))
deriving DecidableEq

/-- Per-round base yield of the whole network: mintable tokens divided
by total active stake, 0 when that stake is not positive. -/
def baseYieldPerRound (mintable totalActive : ℚ) : ℚ :=
  if 0 < totalActive then mintable / totalActive else 0

/-- Delegator share of the per-round base yield after the reward cut
(fixed-point fraction at scale 1,000,000). -/
def delegatorYieldPerRound (mintable totalActive rewardCut : ℚ) : ℚ :=
  baseYieldPerRound mintable totalActive * (1 - rewardCut / 1000000)

/-- Delegator share of an orchestrator's 30-day ETH fee volume. -/
def delegatorFees30dOf (eth30d feeShare : ℚ) : ℚ := eth30d * (feeShare / 1000000)

/-- The orchestrator mapping of loadOrchestrators: copy the raw fields
and derive yield projections and status flags. -/
def mkOrch (mintable totalActive : ℚ) (currentRoundId : String)
    (t : RawTranscoder) : Orch :=
  { id := t.id, rewardCut := t.rewardCut, feeShare := t.feeShare,
    stake := t.totalStake, eth30d := t.thirtyDayVolumeETH,
    eth90d := t.ninetyDayVolumeETH, totalETH := t.totalVolumeETH,
    rewardAPY := delegatorYieldPerRound mintable totalActive t.rewardCut * 365 * 100,
    ethYieldPerLPT :=
      if 0 < t.totalStake then
        delegatorFees30dOf t.thirtyDayVolumeETH t.feeShare / t.totalStake * 12
      else 0,
    delegatorFees30d := delegatorFees30dOf t.thirtyDayVolumeETH t.feeShare,
    isWorking := decide (0 < t.thirtyDayVolumeETH),
    lastRewardRound := t.lastRewardRound,
    callingReward := decide (t.lastRewardRound = some currentRoundId),
    sparkline := none }

/-! ### Component state, network environment, and the two loaders -/

/-- Sortable numeric columns of the comparison table. -/
inductive SortCol where
  | rewardAPY
  | eth30d
  | ethYieldPerLPT
  | rewardCut
  | feeShare
  | stake
deriving DecidableEq

/-- Network requests the component can issue. -/
inductive Request where
  | ensQ (name : String)
  | delegatorQ (addr : String)
  | earningsQ (addr : String)
  | eventsQ (addr : String)
  | transcodersQ
  | protocolQ
  | ensBatchQ (addrs : List String)
  | sparklineQ (ids : List String)
deriving DecidableEq

/-- Responses of the external endpoints: each query either yields data
or rejects with an error message (gqlFetch throws on a GraphQL error). -/
structure Env where
  ens : String → Except String String
  delegatorQ : String → Except String (Option RawDelegator)
  earningsQ : String → Except String (List RawClaim)
  eventsQ : String → Except String RawEvents
  transcodersQ : Except String (List RawTranscoder)
  protocolQ : Except String RawProtocol

/-- React state of the component (the fields the data layer touches;
the source's `show` flag is modelled as `shown`, with the deferred
`setShow(true)` of the success path already applied). -/
structure DashState where
  wallet : String
  loading : Bool
  error : String
  data : Option DelegatorData
  tab : String
  shown : Bool
  orchData : Option (List Orch)
  orchLoading : Bool
  orchFilter : String
  orchSortCol : SortCol
  orchSortDesc : Bool
  ensNames : String → Option String
  protocolData : Option ProtocolData
  simStake : ℚ
  simCustom : Bool

/-- Model of `Promise.all` on two requests: both results, or the first
rejection in argument order. -/
def promiseAll2 {α β : Type} : Except String α → Except String β → Except String (α × β)
  | .error m, _ => .error m
  | .ok _, .error m => .error m
  | .ok a, .ok b => .ok (a, b)

/-- Model of `Promise.all` on three requests. -/
def promiseAll3 {α β γ : Type} :
    Except String α → Except String β → Except String γ → Except String (α × β × γ)
  | .error m, _, _ => .error m
  | .ok _, .error m, _ => .error m
  | .ok _, _, .error m => .error m
  | .ok a, .ok b, .ok c => .ok (a, b, c)

/-- Validation error message of the source. -/
def invalidAddrMsg : String :=
  "Please enter a valid Ethereum address (0x...) or ENS name (.eth)"

/-- Not-found error message of the source. -/
def noDelegatorMsg : String :=
  "No delegator found at this address. Make sure the wallet has delegated LPT on Livepeer (Arbitrum)."

/-- The loadDelegator function: returns the component state after the
call settles together with the list of network requests it issued. -/
def loadDelegator (s : DashState) (address : String) (env : Env) :
    DashState × List Request :=
  let input := jsTrim address
  if input = "" then (s, [])
  else
    let s1 : DashState :=
      { s with loading := true, error := "", data := none, orchData := none }
    let resolved : Except String String × List Request :=
      if jsEndsWith input ".eth" then (env.ens input, [Request.ensQ input])
      else
        let a := jsToLower input
        if validAddr a then (Except.ok a, []) else (Except.error invalidAddrMsg, [])
    match resolved with
    | (Except.error msg, reqs) => ({ s1 with error := msg, loading := false }, reqs)
    | (Except.ok addr, reqs) =>
      let reqs := reqs ++ [Request.delegatorQ addr, Request.earningsQ addr, Request.eventsQ addr]
      match promiseAll3 (env.delegatorQ addr) (env.earningsQ addr) (env.eventsQ addr) with
      | Except.error msg => ({ s1 with error := msg, loading := false }, reqs)
      | Except.ok (delOpt, rawClaims, evts) =>
        match delOpt with
        | none => ({ s1 with error := noDelegatorMsg, loading := false }, reqs)
        | some del =>
          ({ s1 with
              data := some (mkData addr del rawClaims evts),
              wallet := addr, tab := "dash", shown := true,
              simStake := del.bondedAmount, simCustom := false,
              loading := false }, reqs)

/-- The loadOrchestrators function: memoized on orchData being present;
otherwise fetches the transcoder list and protocol constants, stores
the snapshots, and fires the best-effort background requests (batch ENS
and, when some orchestrator is working, sparkline history). -/
def loadOrchestrators (s : DashState) (env : Env) : DashState × List Request :=
  if s.orchData.isSome then (s, [])
  else
    match promiseAll2 env.transcodersQ env.protocolQ with
    | Except.error _ =>
      ({ s with orchLoading := false }, [Request.transcodersQ, Request.protocolQ])
    | Except.ok (ts, p) =>
      let orchs := ts.map (mkOrch p.mintableTokens p.totalActiveStake p.currentRound)
      let working := (orchs.filter (fun o => o.isWorking)).map Orch.id
      ({ s with
          orchData := some orchs, protocolData := some (mkProtocolData p),
          orchLoading := false },
        [Request.transcodersQ, Request.protocolQ, Request.ensBatchQ (orchs.map Orch.id)]
          ++ if working.isEmpty then [] else [Request.sparklineQ working])

/-! ### Derived render-time data

These mirror the derived bindings computed in the component body from
the current `data` state: the `x?.f || 0` optional accesses, the ROI
guard, the cumulative claim series, and the filtered/sorted comparison
table that feeds the CSV export. -/

/-- Model of `data?.bondedAmount || 0`. -/
def bondedAmountOf : Option DelegatorData → ℚ
  | none => 0
  | some d => d.bondedAmount

/-- Model of `data?.earned || 0`. -/
def earnedOf : Option DelegatorData → ℚ
  | none => 0
  | some d => d.earned

/-- Principal: bonded amount minus lifetime earned (not clamped). -/
def principalOf (d : Option DelegatorData) : ℚ :=
  bondedAmountOf d - earnedOf d

/-- The reward ROI binding of the component body, including its
`bondedAmount > 0` guard. -/
def roi (d : Option DelegatorData) : ℚ :=
  if 0 < bondedAmountOf d then earnedOf d / max (principalOf d) 1 * 100 else 0

/-- Round a rational for display at `d` decimal places: the model of
JavaScript `+x.toFixed(d)` for the non-negative values of this series
(round to nearest, halves up). -/
def roundTo (d : ℕ) (x : ℚ) : ℚ := (round (x * 10 ^ d) : ℤ) / 10 ^ d

/-- One point of the cumulative series: running totals rounded for
display at 2 (LPT) and 5 (ETH) decimals, plus the claim deltas. -/
structure CumPoint where
  ts : ℚ
  lpt : ℚ
  eth : ℚ
  claimLPT : ℚ
  claimETH : ℚ
deriving DecidableEq

/-- Running-sum fold over claims carrying the unrounded accumulators. -/
def cumAux : ℚ → ℚ → List Claim → List CumPoint
  | _, _, [] => []
  | cl, ce, c :: cs =>
    { ts := c.ts, lpt := roundTo 2 (cl + c.lpt), eth := roundTo 5 (ce + c.eth),
      claimLPT := c.lpt, claimETH := c.eth } :: cumAux (cl + c.lpt) (ce + c.eth) cs

/-- The cumulative series binding of the component body (its emptiness
guard is redundant: the fold of an empty claims list is empty). -/
def cumData (claims : List Claim) : List CumPoint := cumAux 0 0 claims

/-- Numeric key of a sortable comparison-table column. -/
def orchKey (c : SortCol) (o : Orch) : ℚ :=
  match c with
  | .rewardAPY => o.rewardAPY
  | .eth30d => o.eth30d
  | .ethYieldPerLPT => o.ethYieldPerLPT
  | .rewardCut => o.rewardCut
  | .feeShare => o.feeShare
  | .stake => o.stake

/-- Order induced by the sort comparator
`(a[col] - b[col]) * (dir == desc ? -1 : 1)`. -/
def orchLE (c : SortCol) (desc : Bool) (a b : Orch) : Prop :=
  if desc then orchKey c b ≤ orchKey c a else orchKey c a ≤ orchKey c b

instance (c : SortCol) (desc : Bool) : DecidableRel (orchLE c desc) := fun a b => by
  unfold orchLE; infer_instance

/-- The filteredOrchs binding: filter by the working/all toggle, then
stable-sort by the selected numeric column and direction. -/
def filteredOrchs (orchs : List Orch) (filter : String) (c : SortCol)
    (desc : Bool) : List Orch :=
  List.insertionSort (orchLE c desc)
    (orchs.filter (fun o => filter == "all" || o.isWorking))

/-! ### CSV export -/

/-- One CSV cell before string serialization: either a literal string,
or a numeric value together with the decimal count its `toFixed` call
uses. -/
inductive Cell where
  | str (v : String)
  | num (v : ℚ) (decimals : ℕ)
deriving DecidableEq

/-- The header row of exportCSV, in source order. -/
def exportHeaders : List String :=
  ["Orchestrator", "ENS Name", "Reward APY %", "30d ETH Fees", "ETH/LPT/yr",
   "Reward Cut %", "Fee Share %", "Total Stake", "Reward Calling",
   "Est LPT/yr", "Est ETH/yr"]

/-- One data row of exportCSV. -/
def exportRow (ensNames : String → Option String) (simStake : ℚ) (o : Orch) :
    List Cell :=
  [Cell.str o.id, Cell.str ((ensNames o.id).getD ""),
   Cell.num o.rewardAPY 2, Cell.num o.eth30d 4,
   Cell.num o.ethYieldPerLPT 6, Cell.num (o.rewardCut / 10000) 2,
   Cell.num (o.feeShare / 10000) 2, Cell.num o.stake 0,
   Cell.str (if o.callingReward then "Yes" else "No"),
   Cell.num (simStake * o.rewardAPY / 100) 2,
   Cell.num (simStake * o.ethYieldPerLPT) 6]

/-- The exportCSV table: header row followed by one row per given
orchestrator (download plumbing is I/O and out of scope). -/
def exportCSV (orchs : List Orch) (ensNames : String → Option String)
    (simStake : ℚ) : List (List Cell) :=
  exportHeaders.map Cell.str :: orchs.map (exportRow ensNames simStake)

/-- The simulated stake used at the export call site:
`simCustom ? simStake : bondedAmount`. -/
def effectiveStake (s : DashState) : ℚ :=
  if s.simCustom then s.simStake else bondedAmountOf s.data

/-- The export button call site: exportCSV applied to the currently
filtered/sorted rows, the ENS map, and the effective simulated stake. -/
def exportFromState (s : DashState) : List (List Cell) :=
  exportCSV
    (filteredOrchs (s.orchData.getD []) s.orchFilter s.orchSortCol s.orchSortDesc)
    s.ensNames (effectiveStake s)

/-! ### Concrete fixtures

Closed inputs used by the boundary scenarios, counterexamples and
witnesses below. -/

/-- A well-formed lower-case address input. -/
def addr40 : String := "0xaaaaaaaaaaaaaaaaaaaaaaaaaaaaaaaaaaaaaaaa"

/-- An environment whose every request rejects (message "boom"). -/
def env0 : Env :=
  { ens := fun _ => Except.error "boom",
    delegatorQ := fun _ => Except.error "boom",
    earningsQ := fun _ => Except.error "boom",
    eventsQ := fun _ => Except.error "boom",
    transcodersQ := Except.error "boom",
    protocolQ := Except.error "boom" }

/-- The initial component state. -/
def emptyState : DashState :=
  { wallet := "", loading := false, error := "", data := none, tab := "dash",
    shown := false, orchData := none, orchLoading := false,
    orchFilter := "working", orchSortCol := .rewardAPY, orchSortDesc := true,
    ensNames := fun _ => none, protocolData := none, simStake := 0,
    simCustom := false }

/-- Transcoder of the yield projection scenario: reward cut stored as
100000 out of 1,000,000 (i.e. 10 percent). -/
def t100 : RawTranscoder :=
  { id := "0xo", rewardCut := 100000, feeShare := 500000, totalStake := 100000,
    thirtyDayVolumeETH := 5, ninetyDayVolumeETH := 15, totalVolumeETH := 50,
    lastRewardRound := some "1" }

/-- Protocol snapshot of the yield projection scenario:
mintable 1000, total active stake 100000. -/
def p100 : RawProtocol :=
  { inflation := 0, totalActiveStake := 100000, totalSupply := 1000000,
    participationRate := 0, currentRound := "1", mintableTokens := 1000,
    lptPriceEth := 0 }

/-- A concrete orchestrator snapshot. -/
def orch1 : Orch := mkOrch 1000 100000 "1" t100

/-- A state holding already-fetched orchestrator comparison data. -/
def stateWithOrch : DashState := { emptyState with orchData := some [orch1] }

/-- An environment whose transcoders and protocol queries succeed. -/
def envOk : Env := { env0 with transcodersQ := Except.ok [t100], protocolQ := Except.ok p100 }

/-- Delegator profile with bonded amount 50. -/
def del50 : RawDelegator :=
  { bondedAmount := 50, fees := 0, withdrawnFees := 0, startRound := 1,
    delegate := none }

/-- Delegator profile with bonded amount 0 (fully unbonded). -/
def del0 : RawDelegator := { del50 with bondedAmount := 0 }

/-- Raw claim rewarding 80 LPT. -/
def rc80 : RawClaim :=
  { timestamp := 1000, startRound := 1, endRound := 10, rewardTokens := 80,
    fees := 0, delegate := none }

/-- Raw claim covering the single round 100. -/
def rcSingle : RawClaim := { rc80 with startRound := 100, endRound := 100 }

/-- Empty event collections. -/
def noEvents : RawEvents := ⟨[], [], [], [], []⟩

/-- A claim of 0.001 LPT: display rounding at two decimals collapses
its running total to 0. -/
def cTiny : Claim := { lpt := 1/1000, eth := 0, ts := 0, rounds := 1, delegate := none }

/-- First claim of the end-to-end scenario. -/
def cA : Claim := { lpt := 5, eth := 1/1000, ts := 100, rounds := 1, delegate := none }

/-- Second claim of the end-to-end scenario. -/
def cB : Claim := { lpt := 20, eth := 4/1000, ts := 200, rounds := 5, delegate := none }

/-! ### Helper lemmas: stable sort and the cumulative fold -/

/-- Inserting an entry into a list keeps the per-timestamp sublist: the
entry lands in front of exactly the equal-timestamp entries it was
inserted before (every skipped entry has a strictly smaller timestamp). -/
theorem filter_ts_orderedInsert (t : ℚ) (a : TimelineEntry) (l : List TimelineEntry) :
    (List.orderedInsert tsLE a l).filter (fun e => decide (e.ts = t)) =
      if a.ts = t then a :: l.filter (fun e => decide (e.ts = t))
      else l.filter (fun e => decide (e.ts = t)) := by
  induction l with
  | nil => by_cases h : a.ts = t <;> simp [List.orderedInsert, h]
  | cons b bs ih =>
    by_cases hr : tsLE a b
    · by_cases h : a.ts = t <;> simp [List.orderedInsert, hr, h]
    · have hba : b.ts < a.ts := lt_of_not_le hr
      by_cases h : a.ts = t
      · have hbt : ¬ b.ts = t := by rw [← h]; exact ne_of_lt hba
        simp [List.orderedInsert, hr, ih, h, hbt]
      · by_cases hbt : b.ts = t <;> simp [List.orderedInsert, hr, ih, h, hbt]

/-- Stability of the timeline sort: sorting does not change the
subsequence of entries carrying any fixed timestamp. -/
theorem filter_ts_sortTimeline (t : ℚ) (l : List TimelineEntry) :
    (sortTimeline l).filter (fun e => decide (e.ts = t)) =
      l.filter (fun e => decide (e.ts = t)) := by
  induction l with
  | nil => rfl
  | cons a l ih =>
    unfold sortTimeline List.insertionSort
    rw [filter_ts_orderedInsert]
    unfold sortTimeline at ih
    by_cases h : a.ts = t <;> simp [h, ih]

/-- The timeline sort output is sorted by ascending timestamp. -/
theorem sortTimeline_sorted (l : List TimelineEntry) :
    List.Sorted tsLE (sortTimeline l) :=
  List.sorted_insertionSort tsLE l

/-- Length of the cumulative fold. -/
theorem cumAux_length (cs : List Claim) :
    ∀ cl ce : ℚ, (cumAux cl ce cs).length = cs.length := by
  induction cs with
  | nil => intro cl ce; rfl
  | cons c cs ih => intro cl ce; simp [cumAux, ih]

/-- Length of the cumulative series. -/
theorem cumData_length (claims : List Claim) :
    (cumData claims).length = claims.length :=
  cumAux_length claims 0 0

/-- Pointwise description of the cumulative fold: the point at index i
is the claim's timestamp and deltas together with the running totals,
rounded for display only after the (unrounded) accumulation. -/
theorem cumAux_get (cs : List Claim) :
    ∀ (cl ce : ℚ) (i : ℕ) (h : i < cs.length),
      (cumAux cl ce cs).get ⟨i, by rw [cumAux_length]; exact h⟩ =
        { ts := (cs.get ⟨i, h⟩).ts,
          lpt := roundTo 2 (cl + ((cs.take (i + 1)).map Claim.lpt).sum),
          eth := roundTo 5 (ce + ((cs.take (i + 1)).map Claim.eth).sum),
          claimLPT := (cs.get ⟨i, h⟩).lpt,
          claimETH := (cs.get ⟨i, h⟩).eth } := by
  induction cs with
  | nil => intro cl ce i h; exact absurd h (Nat.not_lt_zero i)
  | cons c cs ih =>
    intro cl ce i h
    cases i with
    | zero => simp [cumAux]
    | succ n =>
      have h' : n < cs.length := Nat.lt_of_succ_lt_succ h
      have := ih (cl + c.lpt) (ce + c.eth) n h'
      simp only [cumAux, List.get_cons_succ, this, List.take_succ_cons,
        List.map_cons, List.sum_cons]
      congr 1 <;> ring_nf

/-- Pointwise description of the cumulative series. -/
theorem cumData_get (claims : List Claim) (i : ℕ) (h : i < claims.length) :
    (cumData claims).get ⟨i, by rw [cumData_length]; exact h⟩ =
      { ts := (claims.get ⟨i, h⟩).ts,
        lpt := roundTo 2 (((claims.take (i + 1)).map Claim.lpt).sum),
        eth := roundTo 5 (((claims.take (i + 1)).map Claim.eth).sum),
        claimLPT := (claims.get ⟨i, h⟩).lpt,
        claimETH := (claims.get ⟨i, h⟩).eth } := by
  have := cumAux_get claims 0 0 i h
  simpa [cumData] using this

/-- Display rounding is monotone. -/
theorem roundTo_mono (d : ℕ) {x y : ℚ} (h : x ≤ y) : roundTo d x ≤ roundTo d y := by
  unfold roundTo
  have h10 : (0 : ℚ) < 10 ^ d := by positivity
  refine (div_le_div_right h10).2 ?_
  have : round (x * 10 ^ d) ≤ round (y * 10 ^ d) := by
    rw [round_eq, round_eq]
    refine Int.floor_mono ?_
    have : x * 10 ^ d ≤ y * 10 ^ d := by
      exact mul_le_mul_of_nonneg_right h (le_of_lt h10)
    linarith
  exact_mod_cast this

/-! ### Claim theorems -/

/-- C1, counterexample: the unguarded ROI formula does not describe the
code on every dataset. For a delegator with bonded amount 0 and one
80-LPT claim, the code's roi is 0 (the bondedAmount > 0 guard), while
the claimed formula lifetimeEarned / max(principal, 1) * 100 gives 8000. -/
theorem roi_formula_counterexample :
    roi (some (mkData addr40 del0 [rc80] noEvents)) = 0 ∧
    earnedOf (some (mkData addr40 del0 [rc80] noEvents)) /
        max (principalOf (some (mkData addr40 del0 [rc80] noEvents))) 1 * 100 = 8000 ∧
    (0 : ℚ) ≠ 8000 := by
  refine ⟨?_, ?_, by norm_num⟩
  · norm_num [roi, bondedAmountOf, mkData, del0, del50]
  · have hmax : max ((0 : ℚ) - 80) 1 = 1 := by
      rw [max_eq_right]; norm_num
    norm_num [earnedOf, principalOf, bondedAmountOf, mkData, mkClaim, rc80,
      del0, del50, hmax]

/-- C1 (amended): rewardROI equals
lifetimeEarnedLPT / max(principal, 1) * 100 only under the code's
bondedAmount > 0 guard, and is 0 otherwise; the boundary dataset
(bonded 50, earned 80, principal -30) does hit the clamp and yields
8000 percent. -/
theorem roi_guarded_formula :
    (∀ (addr : String) (del : RawDelegator) (rcs : List RawClaim) (evts : RawEvents),
        roi (some (mkData addr del rcs evts)) =
          if 0 < del.bondedAmount then
            (rcs.map RawClaim.rewardTokens).sum /
              max (del.bondedAmount - (rcs.map RawClaim.rewardTokens).sum) 1 * 100
          else 0) ∧
    roi (some (mkData addr40 del50 [rc80] noEvents)) = 8000 ∧
    roi none = 0 := by
  refine ⟨?_, ?_, rfl⟩
  · intro addr del rcs evts
    have hmap : ((rcs.map mkClaim).map Claim.lpt) = rcs.map RawClaim.rewardTokens := by
      simp [List.map_map, Function.comp_def, mkClaim]
    simp [roi, earnedOf, bondedAmountOf, principalOf, mkData, hmap]
  · have hmax : max ((50 : ℚ) - 80) 1 = 1 := by
      rw [max_eq_right]; norm_num
    norm_num [roi, earnedOf, bondedAmountOf, principalOf, mkData, mkClaim, rc80,
      del50, hmax]

/-- C2, counterexample: starting a lookup for another address does not
leave the cached orchestrator data unchanged — loadDelegator resets
orchData to null before dispatching, here turning a cached list into
none. -/
theorem orch_cache_counterexample :
    stateWithOrch.orchData = some [orch1] ∧
    (loadDelegator stateWithOrch addr40 env0).1.orchData = none ∧
    (some [orch1] : Option (List Orch)) ≠ none := by
  exact ⟨rfl, rfl, by simp⟩

/-- C2 (amended): the comparison data is fetched at most once per
cached lifetime — loadOrchestrators is a no-op issuing no requests
whenever orchData is already present — but starting a lookup with any
non-empty input clears that cache (orchData becomes none), so a later
comparison-view request refetches it. -/
theorem orch_cache_amended :
    (∀ (s : DashState) (env : Env) (l : List Orch), s.orchData = some l →
        loadOrchestrators s env = (s, [])) ∧
    (∀ (s : DashState) (address : String) (env : Env), jsTrim address ≠ "" →
        (loadDelegator s address env).1.orchData = none) := by
  constructor
  · intro s env l h
    simp [loadOrchestrators, h]
  · intro s address env h
    unfold loadDelegator
    rw [if_neg h]
    dsimp only
    split
    · rfl
    · split
      · rfl
      · split
        · rfl
        · rfl

/-- C2 amended witness: the cached state short-circuits with no
requests, and a concrete non-empty lookup clears the cache. -/
theorem orch_cache_amended_witness :
    loadOrchestrators stateWithOrch env0 = (stateWithOrch, []) ∧
    (loadDelegator stateWithOrch addr40 env0).1.orchData = none :=
  ⟨orch_cache_amended.1 stateWithOrch env0 [orch1] rfl,
   orch_cache_amended.2 stateWithOrch addr40 env0 (by decide)⟩

/-- C3: the three per-delegator queries form an and-join barrier — if
any of them rejects, or the profile query returns no delegator, the
final state has empty data (and cleared orchestrator cache), a
non-empty error message, loading off, the previous wallet untouched,
and exactly one dispatch of each of the three queries (no retry). -/
theorem lookup_barrier (s : DashState) (address a : String) (env : Env)
    (msg : String) (rc : List RawClaim) (ev : RawEvents)
    (h0 : jsTrim address ≠ "")
    (h1 : jsEndsWith (jsTrim address) ".eth" = false)
    (ha : a = jsToLower (jsTrim address))
    (h2 : validAddr a = true)
    (hfail : promiseAll3 (env.delegatorQ a) (env.earningsQ a) (env.eventsQ a) =
          Except.error msg ∧ msg ≠ "" ∨
        promiseAll3 (env.delegatorQ a) (env.earningsQ a) (env.eventsQ a) =
          Except.ok (none, rc, ev)) :
    (loadDelegator s address env).1.data = none ∧
    (loadDelegator s address env).1.orchData = none ∧
    (loadDelegator s address env).1.error ≠ "" ∧
    (loadDelegator s address env).1.loading = false ∧
    (loadDelegator s address env).1.wallet = s.wallet ∧
    (loadDelegator s address env).2 =
      [Request.delegatorQ a, Request.earningsQ a, Request.eventsQ a] := by
  subst ha
  unfold loadDelegator
  rw [if_neg h0]
  simp only [h1, Bool.false_eq_true, if_false, h2, if_true]
  rcases hfail with ⟨hf, hm⟩ | hf
  · rw [hf]
    simp [hm]
  · rw [hf]
    refine ⟨rfl, rfl, ?_, rfl, rfl, rfl⟩
    show noDelegatorMsg ≠ ""
    decide

/-- C3 witness: with every query rejecting, the concrete lookup ends
with empty data and the rejection message. -/
theorem lookup_barrier_witness :
    (loadDelegator emptyState addr40 env0).1.data = none ∧
    (loadDelegator emptyState addr40 env0).1.error ≠ "" ∧
    (loadDelegator emptyState addr40 env0).2 =
      [Request.delegatorQ addr40, Request.earningsQ addr40, Request.eventsQ addr40] := by
  have h := lookup_barrier emptyState addr40 addr40 env0 "boom" [] noEvents
    (by decide) (by decide) (by decide) (by decide) (Or.inl ⟨rfl, by decide⟩)
  exact ⟨h.1, h.2.2.1, h.2.2.2.2.2⟩

/-- C4: the merged timeline is sorted ascending by timestamp, and the
sort is stable — for every timestamp the subsequence of entries
carrying it equals the source-append-order subsequence, with the
stake-event entries first and the claim entries after them. -/
theorem timeline_sorted_stable (evts : RawEvents) (claims : List Claim) :
    List.Sorted tsLE (buildTimeline evts claims) ∧
    (∀ (i : ℕ) (h : i + 1 < (buildTimeline evts claims).length),
        ((buildTimeline evts claims).get ⟨i, Nat.lt_of_succ_lt h⟩).ts ≤
          ((buildTimeline evts claims).get ⟨i + 1, h⟩).ts) ∧
    (∀ t : ℚ, (buildTimeline evts claims).filter (fun e => decide (e.ts = t)) =
        (stakeEventEntries evts).filter (fun e => decide (e.ts = t)) ++
          (claimEntries claims).filter (fun e => decide (e.ts = t))) := by
  refine ⟨sortTimeline_sorted _, ?_, ?_⟩
  · intro i h
    exact (sortTimeline_sorted _).rel_get_of_lt (by exact Nat.lt_succ_self i)
  · intro t
    rw [buildTimeline, filter_ts_sortTimeline, timelineSources, List.filter_append]

/-- C4 witness: on a concrete two-claim input the sorted timeline's
consecutive timestamps are ordered. -/
theorem timeline_sorted_stable_witness :
    ((buildTimeline noEvents [cA, cB]).get ⟨0, by decide⟩).ts ≤
      ((buildTimeline noEvents [cA, cB]).get ⟨1, by decide⟩).ts :=
  (timeline_sorted_stable noEvents [cA, cB]).2.1 0 (by decide)

/-- C5, counterexample: the cumulative series is not literally the
prefix-sum of the claims — its points are the running totals rounded
for display. A single non-negative claim of 0.001 LPT yields the point
0, not the prefix sum 0.001. -/
theorem cumulative_prefix_counterexample :
    ([cTiny] ≠ []) ∧ (∀ c ∈ [cTiny], 0 ≤ c.lpt ∧ 0 ≤ c.eth) ∧
    (cumData [cTiny]).map CumPoint.lpt = [0] ∧
    ([cTiny].map Claim.lpt).sum = 1 / 1000 ∧ (0 : ℚ) ≠ 1 / 1000 := by
  refine ⟨by simp, by norm_num [cTiny], ?_, by norm_num [cTiny], by norm_num⟩
  have hfloor : ⌊(1 : ℚ) / 10 + 1 / 2⌋ = 0 := by
    apply Int.floor_eq_iff.mpr
    constructor <;> norm_num
  have hr : roundTo 2 ((0 : ℚ) + 1 / 1000) = 0 := by
    unfold roundTo
    rw [round_eq, show ((0 : ℚ) + 1 / 1000) * 10 ^ 2 = 1 / 10 by norm_num, hfloor]
    norm_num
  have hmap : (cumData [cTiny]).map CumPoint.lpt = [roundTo 2 ((0 : ℚ) + 1 / 1000)] := rfl
  rw [hmap, hr]

/-- C5 (amended): the cumulative series has one point per claim; each
point carries the prefix sums of the claim amounts in list order,
rounded for display at 2 (LPT) and 5 (ETH) decimals; and under
non-negative claim amounts the series is monotonically non-decreasing
in both dimensions. -/
theorem cumulative_series_monotone (claims : List Claim) (hne : claims ≠ [])
    (hnn : ∀ c ∈ claims, 0 ≤ c.lpt ∧ 0 ≤ c.eth) :
    (cumData claims).length = claims.length ∧
    (∀ (i : ℕ) (h : i < claims.length),
        ((cumData claims).get ⟨i, by rw [cumData_length]; exact h⟩).lpt =
            roundTo 2 (((claims.take (i + 1)).map Claim.lpt).sum) ∧
        ((cumData claims).get ⟨i, by rw [cumData_length]; exact h⟩).eth =
            roundTo 5 (((claims.take (i + 1)).map Claim.eth).sum)) ∧
    (∀ (i : ℕ) (h : i + 1 < (cumData claims).length),
        ((cumData claims).get ⟨i, Nat.lt_of_succ_lt h⟩).lpt ≤
            ((cumData claims).get ⟨i + 1, h⟩).lpt ∧
        ((cumData claims).get ⟨i, Nat.lt_of_succ_lt h⟩).eth ≤
            ((cumData claims).get ⟨i + 1, h⟩).eth) := by
  refine ⟨cumData_length claims, ?_, ?_⟩
  · intro i h
    rw [cumData_get claims i h]
    exact ⟨rfl, rfl⟩
  · intro i h
    have h1 : i + 1 < claims.length := by
      rw [cumData_length] at h; exact h
    have h0 : i < claims.length := Nat.lt_of_succ_lt h1
    rw [cumData_get claims i h0, cumData_get claims (i + 1) h1]
    have hmem : claims.get ⟨i + 1, h1⟩ ∈ claims := List.get_mem claims _ h1
    have hsum : ∀ f : Claim → ℚ, 0 ≤ f (claims.get ⟨i + 1, h1⟩) →
        ((claims.take (i + 1)).map f).sum ≤ ((claims.take (i + 2)).map f).sum := by
      intro f hf
      have hlen : i + 1 < (claims.map f).length := by simpa using h1
      rw [List.map_take, List.map_take,
        show i + 2 = i + 1 + 1 from rfl,
        List.sum_take_succ (claims.map f) (i + 1) hlen]
      have hg : (claims.map f)[i + 1] = f (claims.get ⟨i + 1, h1⟩) := by
        simp
      rw [hg]
      linarith
    exact ⟨roundTo_mono 2 (hsum Claim.lpt (hnn _ hmem).1),
      roundTo_mono 5 (hsum Claim.eth (hnn _ hmem).2)⟩

/-- C5 amended witness: the two-claim scenario (5 then 20 LPT,
0.001 then 0.004 ETH) has a non-decreasing two-point series. -/
theorem cumulative_series_monotone_witness :
    ((cumData [cA, cB]).get ⟨0, by rw [cumData_length]; decide⟩).lpt ≤
      ((cumData [cA, cB]).get ⟨1, by rw [cumData_length]; decide⟩).lpt :=
  ((cumulative_series_monotone [cA, cB] (by simp)
    (by norm_num [cA, cB])).2.2 0 (by rw [cumData_length]; decide)).1

/-- C6: rounds covered by a claim is max(endRound - startRound + 1, 1),
hence always at least 1, and a single-round claim (start = end = 100)
covers exactly 1 round. -/
theorem roundsCovered_clamped :
    (∀ c : RawClaim,
        (mkClaim c).rounds = max (c.endRound - c.startRound + 1) 1 ∧
        1 ≤ (mkClaim c).rounds) ∧
    (mkClaim rcSingle).rounds = 1 := by
  refine ⟨fun c => ⟨rfl, le_max_right _ _⟩, ?_⟩
  norm_num [mkClaim, rcSingle, rc80]

/-- C7: a successful loadOrchestrators stores one snapshot per raw
transcoder built by mkOrch from the protocol constants; mkOrch
satisfies the spec's yield formulas (base yield guarded by positive
total active stake, delegator yield after the reward cut, APY over 365
rounds, 30-day fee share annualized times 12, guarded by positive
stake); and the boundary scenario mintable 1000, total active stake
100000, reward cut 100000/1000000 gives base yield 0.01, delegator
yield 0.009, APY 328.5 percent. -/
theorem yield_projection (s : DashState) (env : Env) (ts : List RawTranscoder)
    (p : RawProtocol) (hs : s.orchData = none)
    (ht : env.transcodersQ = Except.ok ts) (hp : env.protocolQ = Except.ok p) :
    ((loadOrchestrators s env).1.orchData =
        some (ts.map (mkOrch p.mintableTokens p.totalActiveStake p.currentRound))) ∧
    (∀ (m a : ℚ) (r : String) (t : RawTranscoder),
        (mkOrch m a r t).rewardAPY =
            ((if 0 < a then m / a else 0) * (1 - t.rewardCut / 1000000)) * 365 * 100 ∧
        (mkOrch m a r t).ethYieldPerLPT =
            (if 0 < t.totalStake then
              t.thirtyDayVolumeETH * (t.feeShare / 1000000) / t.totalStake * 12
            else 0) ∧
        (mkOrch m a r t).delegatorFees30d =
            t.thirtyDayVolumeETH * (t.feeShare / 1000000)) ∧
    baseYieldPerRound 1000 100000 = 1 / 100 ∧
    delegatorYieldPerRound 1000 100000 100000 = 9 / 1000 ∧
    (mkOrch 1000 100000 "1" t100).rewardAPY = 657 / 2 := by
  refine ⟨?_, ?_, ?_, ?_, ?_⟩
  · rw [loadOrchestrators, if_neg (by rw [hs]; simp)]
    rw [ht, hp]
    rfl
  · intro m a r t
    exact ⟨rfl, rfl, rfl⟩
  · norm_num [baseYieldPerRound]
  · norm_num [delegatorYieldPerRound, baseYieldPerRound]
  · norm_num [mkOrch, delegatorYieldPerRound, baseYieldPerRound, t100]

/-- C7 witness: the concrete environment with one transcoder and the
scenario protocol constants ends with exactly that orchestrator list. -/
theorem yield_projection_witness :
    (loadOrchestrators emptyState envOk).1.orchData =
      some [mkOrch 1000 100000 "1" t100] := by
  have h := yield_projection emptyState envOk [t100] p100 rfl rfl rfl
  exact h.1

/-- C8, counterexample: the parse of numeric decimal strings is not
arbitrary-precision — ECMAScript Number maps the decimal string of
2^53 + 1 to 2^53, losing the final unit. -/
theorem number_parse_counterexample :
    jsNumberOfNat 9007199254740993 = 9007199254740992 ∧
    jsNumberOfNat 9007199254740993 ≠ 9007199254740993 := by
  constructor <;> decide

/-- C8 (amended): numeric decimal strings are parsed with JavaScript
Number into binary64 values — exact for integers up to 2^53 but not
arbitrary-precision beyond — and display rounding happens only on the
presentation output: each cumulative point is the rounding of the
exact (unrounded) running sum, never a rounded value fed back into the
accumulation. -/
theorem number_parse_amended :
    (∀ n : ℕ, n ≤ 2 ^ 53 → jsNumberOfNat n = n) ∧
    (∀ (claims : List Claim) (i : ℕ) (h : i < claims.length),
        ((cumData claims).get ⟨i, by rw [cumData_length]; exact h⟩).lpt =
          roundTo 2 (((claims.take (i + 1)).map Claim.lpt).sum)) := by
  constructor
  · intro n h
    unfold jsNumberOfNat
    rw [if_pos h]
  · intro claims i h
    rw [cumData_get claims i h]

/-- C8 amended witness: a small integer parses exactly, and the first
cumulative point is the rounded exact prefix sum. -/
theorem number_parse_amended_witness :
    jsNumberOfNat 42 = 42 ∧
    ((cumData [cA]).get ⟨0, by rw [cumData_length]; decide⟩).lpt =
      roundTo 2 ((([cA].take 1).map Claim.lpt).sum) :=
  ⟨number_parse_amended.1 42 (by norm_num),
   number_parse_amended.2 [cA] 0 (by decide)⟩

/-- C9, counterexample: the CSV schema has exactly 11 named columns,
not at least 12. -/
theorem export_schema_counterexample :
    exportHeaders.length = 11 ∧ ¬ 12 ≤ exportHeaders.length ∧
    (exportCSV [orch1] (fun _ => none) 0).head? =
      some (exportHeaders.map Cell.str) := by
  refine ⟨rfl, by decide, rfl⟩

/-- C9 (amended): the export serializes a fixed schema of exactly 11
named columns — the header row and each data row have length 11 for
every input dataset, independent of the filter and sort state — and
the export call site operates on the currently filtered/sorted rows
together with the effective simulated stake. -/
theorem export_schema_fixed (orchs : List Orch) (ens : String → Option String)
    (stake : ℚ) (s : DashState) :
    (exportCSV orchs ens stake).head? = some (exportHeaders.map Cell.str) ∧
    (exportCSV orchs ens stake).length = orchs.length + 1 ∧
    (∀ row ∈ exportCSV orchs ens stake, row.length = 11) ∧
    exportFromState s =
      exportCSV
        (filteredOrchs (s.orchData.getD []) s.orchFilter s.orchSortCol s.orchSortDesc)
        s.ensNames (effectiveStake s) := by
  refine ⟨rfl, by simp [exportCSV], ?_, rfl⟩
  intro row hrow
  rcases List.mem_cons.1 hrow with h | h
  · subst h
    rfl
  · rcases List.mem_map.1 h with ⟨o, _, rfl⟩
    rfl

/-- C9 amended witness: a concrete data row has the 11-column width. -/
theorem export_schema_fixed_witness :
    (exportRow (fun _ => none) 0 orch1).length = 11 :=
  (export_schema_fixed [orch1] (fun _ => none) 0 emptyState).2.2.1
    (exportRow (fun _ => none) 0 orch1) (by simp [exportCSV])

/-- C10: a lookup whose input trims to the empty string is a silent
no-op — the state (loading flag, error, data, wallet) is returned
unchanged and no request is issued — whereas a malformed non-empty
input sets the validation error message (with data cleared and still
no network request). -/
theorem empty_input_noop (s : DashState) (address : String) (env : Env)
    (h : jsTrim address = "") :
    loadDelegator s address env = (s, []) ∧
    (loadDelegator s "not-an-address" env).1.error = invalidAddrMsg ∧
    (loadDelegator s "not-an-address" env).1.data = none ∧
    (loadDelegator s "not-an-address" env).2 = [] := by
  refine ⟨?_, rfl, rfl, rfl⟩
  rw [loadDelegator, if_pos h]

/-- C10 witness: a whitespace-only input leaves the initial state
untouched and issues nothing. -/
theorem empty_input_noop_witness :
    loadDelegator emptyState "   " env0 = (emptyState, []) :=
  (empty_input_noop emptyState "   " env0 (by decide)).1
